import Mathlib

/-!
Shallow embedding of `src/models/dense_net.py` (DenseNet graph construction).

Tensors are modelled symbolically: a `Tensor` is the expression tree of the
framework operations that the Python code applies, together with a static
`Shape` semantics (`height`, `width`, `channels`, mirroring the trailing three
dimensions of the NHWC layout; the batch dimension is omitted).  All
convolutions in the source use stride 1, so only the padding mode affects the
spatial shape; pooling uses VALID padding with stride equal to the kernel.

Python integers are modelled as `Int` with `Int.fdiv` for `//` (floor
division), Python floats as `ℚ`, and Python `int(...)` truncation toward zero
as `pyInt`.
-/

/-- Static shape of a feature-map tensor: height, width, channels. -/
structure Shape where
  height : Nat
  width : Nat
  channels : Nat

/-- Symbolic tensor expression: one constructor per framework operation used in
`dense_net.py`. -/
inductive Tensor where
  | input (s : Shape)
  | batchNorm (t : Tensor)
  | relu (t : Tensor)
  | conv (t : Tensor) (outFeatures kernelSize : Nat) (samePad : Bool)
  | dropout (t : Tensor) (rate : ℚ)
  | avgPool (t : Tensor) (k : Nat)
  | concat (a b : Tensor)
  | resizeCropPad (t : Tensor) (h w : Nat)
  | castFloat (t : Tensor)
  | castInt (t : Tensor)
  | divScalar (t : Tensor) (c : ℚ)
  | sub (a b : Tensor)
  | div (a b : Tensor)
  | add (a b : Tensor)
  | mulScalar (t : Tensor) (c : ℚ)
  | momentsMean (t : Tensor)
  | momentsVariance (t : Tensor)
  | sqrt (t : Tensor)
  | reshape (t : Tensor) (features : Nat)
  | dense (t : Tensor) (outDim : Nat)
  | softmax (t : Tensor)
  | argmax (t : Tensor)
  | oneHot (t : Tensor) (depth : Nat)
  | softmaxXent (logits labels : Tensor)
  | reduceMean (t : Tensor)
  | l2AllVars
  | accuracy (labels preds : Tensor)

/-- Static shape semantics of each operation (stride-1 convolutions, VALID
pooling with stride `k`, channel-axis concatenation). -/
def Tensor.shape : Tensor → Shape
  | .input s => s
  | .batchNorm t => t.shape
  | .relu t => t.shape
  | .conv t o k same =>
      { height := if same then t.shape.height else t.shape.height - k + 1,
        width := if same then t.shape.width else t.shape.width - k + 1,
        channels := o }
  | .dropout t _ => t.shape
  | .avgPool t k =>
      { height := (t.shape.height - k) / k + 1,
        width := (t.shape.width - k) / k + 1,
        channels := t.shape.channels }
  | .concat a b =>
      { height := a.shape.height, width := a.shape.width,
        channels := a.shape.channels + b.shape.channels }
  | .resizeCropPad t h w => { height := h, width := w, channels := t.shape.channels }
  | .castFloat t => t.shape
  | .castInt t => t.shape
  | .divScalar t _ => t.shape
  | .sub a _ => a.shape
  | .div a _ => a.shape
  | .add a _ => a.shape
  | .mulScalar t _ => t.shape
  | .momentsMean t => { height := 1, width := 1, channels := t.shape.channels }
  | .momentsVariance t => { height := 1, width := 1, channels := t.shape.channels }
  | .sqrt t => t.shape
  | .reshape _ f => { height := 1, width := 1, channels := f }
  | .dense t o => { height := t.shape.height, width := t.shape.width, channels := o }
  | .softmax t => t.shape
  | .argmax t => { height := t.shape.height, width := t.shape.width, channels := 1 }
  | .oneHot t d => { height := t.shape.height, width := t.shape.width, channels := d }
  | .softmaxXent a _ => a.shape
  | .reduceMean _ => { height := 1, width := 1, channels := 1 }
  | .l2AllVars => { height := 1, width := 1, channels := 1 }
  | .accuracy _ _ => { height := 1, width := 1, channels := 1 }

/-- Channel count, the Python `input_.get_shape()[-1]`. -/
def Tensor.channels (t : Tensor) : Nat := t.shape.channels

/-- Height, `input_.get_shape()[-3]`. -/
def Tensor.height (t : Tensor) : Nat := t.shape.height

/-- Width, the Python `input_.get_shape()[-2]`. -/
def Tensor.width (t : Tensor) : Nat := t.shape.width

/-- Number of nodes of the expression tree (used to separate distinct graphs). -/
def Tensor.nodeCount : Tensor → Nat
  | .input _ => 1
  | .batchNorm t => t.nodeCount + 1
  | .relu t => t.nodeCount + 1
  | .conv t _ _ _ => t.nodeCount + 1
  | .dropout t _ => t.nodeCount + 1
  | .avgPool t _ => t.nodeCount + 1
  | .concat a b => a.nodeCount + b.nodeCount + 1
  | .resizeCropPad t _ _ => t.nodeCount + 1
  | .castFloat t => t.nodeCount + 1
  | .castInt t => t.nodeCount + 1
  | .divScalar t _ => t.nodeCount + 1
  | .sub a b => a.nodeCount + b.nodeCount + 1
  | .div a b => a.nodeCount + b.nodeCount + 1
  | .add a b => a.nodeCount + b.nodeCount + 1
  | .mulScalar t _ => t.nodeCount + 1
  | .momentsMean t => t.nodeCount + 1
  | .momentsVariance t => t.nodeCount + 1
  | .sqrt t => t.nodeCount + 1
  | .reshape t _ => t.nodeCount + 1
  | .dense t _ => t.nodeCount + 1
  | .softmax t => t.nodeCount + 1
  | .argmax t => t.nodeCount + 1
  | .oneHot t _ => t.nodeCount + 1
  | .softmaxXent a b => a.nodeCount + b.nodeCount + 1
  | .reduceMean t => t.nodeCount + 1
  | .l2AllVars => 1
  | .accuracy a b => a.nodeCount + b.nodeCount + 1

/-- Python `int(q)` on a float: truncation toward zero. -/
def pyInt (q : ℚ) : Int := if q < 0 then -Int.floor (-q) else Int.floor q

/-- The `DenseNet` object of `dense_net.py`: hyperparameters stored by
`__init__` (lines 29-45). -/
structure DenseNet where
  num_classes : Nat
  growth_rate : Nat
  depth : Int
  bc_mode : Bool
  first_output_features : Nat
  total_blocks : Nat
  layers_per_block : Int
  reduction : ℚ
  dropout_rate : ℚ
  nesterov_momentum : ℚ
  weight_decay : ℚ

/-- `DenseNet.__init__` (lines 29-45): stores the hyperparameters, derives
`first_output_features` and `layers_per_block` (`//` is floor division). -/
def DenseNet.init (num_classes growth_rate : Nat) (depth : Int) (bc_mode : Bool)
    (total_blocks : Nat) (dropout_rate reduction weight_decay nesterov_momentum : ℚ) :
    DenseNet :=
  let first_output_features := if bc_mode then growth_rate * 2 else 16
  let lpb := (depth - ((total_blocks : Int) + 1)).fdiv (total_blocks : Int)
  let lpb := if bc_mode then lpb.fdiv 2 else lpb
  { num_classes := num_classes
    growth_rate := growth_rate
    depth := depth
    bc_mode := bc_mode
    first_output_features := first_output_features
    total_blocks := total_blocks
    layers_per_block := lpb
    reduction := reduction
    dropout_rate := dropout_rate
    nesterov_momentum := nesterov_momentum
    weight_decay := weight_decay }

/-- `DenseNet.conv2d` (lines 52-61): stride-1 convolution, padding SAME unless
the caller passes VALID. -/
def conv2d (input_ : Tensor) (out_features kernel_size : Nat) (samePad : Bool) : Tensor :=
  Tensor.conv input_ out_features kernel_size samePad

/-- `DenseNet.avg_pool` (lines 63-69): VALID average pooling, kernel and stride
both `k`. -/
def avg_pool (input_ : Tensor) (k : Nat) : Tensor :=
  Tensor.avgPool input_ k

/-- `DenseNet.batch_norm` (lines 71-76). -/
def batch_norm (input_ : Tensor) (_training : Bool) : Tensor :=
  Tensor.batchNorm input_

/-- `DenseNet.dropout` (lines 78-80). -/
def DenseNet.dropout (d : DenseNet) (input_ : Tensor) (_training : Bool) : Tensor :=
  Tensor.dropout input_ d.dropout_rate

/-- `DenseNet.composite_function` (lines 82-99): batch normalization, ReLU,
convolution with the requested kernel, dropout. -/
def DenseNet.composite_function (d : DenseNet) (input_ : Tensor)
    (out_features kernel_size : Nat) (training : Bool) : Tensor :=
  let output := batch_norm input_ training
  let output := Tensor.relu output
  let output := conv2d output out_features kernel_size true
  let output := d.dropout output training
  output

/-- `DenseNet.bottleneck` (lines 101-109): batch normalization, ReLU, 1x1
convolution with VALID padding, dropout. -/
def DenseNet.bottleneck (d : DenseNet) (input_ : Tensor) (out_features : Nat)
    (training : Bool) : Tensor :=
  let output := batch_norm input_ training
  let output := Tensor.relu output
  let output := conv2d output out_features 1 false
  let output := d.dropout output training
  output

/-- `DenseNet.add_layer` (lines 111-125): optional bottleneck to
`out_features * 4` channels in BC mode, the 3x3 composite function, then
channel-axis concatenation with the layer input. -/
def DenseNet.add_layer (d : DenseNet) (input_ : Tensor) (out_features : Nat)
    (training : Bool) : Tensor :=
  let output := if d.bc_mode then d.bottleneck input_ (out_features * 4) training else input_
  let output := d.composite_function output out_features 3 training
  Tensor.concat input_ output

/-- `DenseNet.add_dense_block` (lines 127-133).  Faithful to the source loop:
`output` starts as `input_` and every iteration assigns
`output = add_layer(input_, ...)` - the accumulator is not fed back in.  A
negative layer count gives the empty Python `range`. -/
def DenseNet.add_dense_block (d : DenseNet) (input_ : Tensor) (growth_rate : Nat)
    (layers_per_block : Int) (training : Bool) : Tensor :=
  (List.range layers_per_block.toNat).foldl
    (fun _output _layer => d.add_layer input_ growth_rate training) input_

/-- `DenseNet.transition_layer` (lines 135-147): 1x1 composite function to
`int(in_channels * reduction)` channels in BC mode (unchanged otherwise), then
2x2 average pooling with stride 2. -/
def DenseNet.transition_layer (d : DenseNet) (input_ : Tensor) (training : Bool) : Tensor :=
  let out_features : Int := (input_.channels : Int)
  let out_features : Int :=
    if d.bc_mode then pyInt ((out_features : ℚ) * d.reduction) else out_features
  let output := d.composite_function input_ out_features.toNat 1 training
  avg_pool output 2

/-- `DenseNet.fully_connected` (lines 149-156): dense projection to `out_dim`. -/
def fully_connected (input_ : Tensor) (out_dim : Nat) : Tensor :=
  Tensor.dense input_ out_dim

/-- `DenseNet.classification_layer` (lines 158-177): batch normalization, ReLU,
average pooling with kernel `get_shape()[-2]` (the width), reshape to the
remaining feature count, dense projection to `num_classes`. -/
def DenseNet.classification_layer (d : DenseNet) (input_ : Tensor) (training : Bool) : Tensor :=
  let output := batch_norm input_ training
  let output := Tensor.relu output
  let last_pool_kernel := output.width
  let output := avg_pool output last_pool_kernel
  let features_total := output.channels
  let output := Tensor.reshape output features_total
  fully_connected output d.num_classes

/-- `tf.estimator.ModeKeys.TRAIN`. -/
def ModeKeys.TRAIN : String := "train"

/-- `tf.estimator.ModeKeys.EVAL`. -/
def ModeKeys.EVAL : String := "eval"

/-- `tf.estimator.ModeKeys.PREDICT` (the string key is "infer"). -/
def ModeKeys.PREDICT : String := "infer"

/-- The `features` mapping passed to `cifar_model_fn`. -/
structure Features where
  images : Tensor
  learning_rate : Tensor

/-- The `predictions` dictionary built at lines 218-221. -/
structure Predictions where
  classes : Tensor
  probabilities : Tensor

/-- The momentum training op built at lines 242-247. -/
structure TrainOp where
  learning_rate : Tensor
  momentum : ℚ
  use_nesterov : Bool
  objective : Tensor

/-- `tf.estimator.EstimatorSpec`: only the fields this file passes. -/
structure EstimatorSpec where
  mode : String
  predictions : Option Predictions
  loss : Option Tensor
  train_op : Option TrainOp
  eval_metric_ops : Option Tensor

/-- The per-block layer count recomputed inside `cifar_model_fn`
(lines 180-182): `(depth - 4) // 3`, halved again in BC mode. -/
def DenseNet.model_fn_layers_per_block (d : DenseNet) : Int :=
  let lpb := (d.depth - 4).fdiv 3
  if d.bc_mode then lpb.fdiv 2 else lpb

/-- The `Image_Processing` scope of `cifar_model_fn` (lines 186-195): in
predict mode, per-batch standardization (moments, sqrt of the variance, cast
and division by 255, centering and scaling); in every mode, the crop-or-pad
resize to 32x32. -/
def image_processing (images : Tensor) (mode : String) : Tensor :=
  let images :=
    if mode = ModeKeys.PREDICT then
      let mean := Tensor.momentsMean images
      let std := Tensor.sqrt (Tensor.momentsVariance images)
      let scaled := Tensor.divScalar (Tensor.castFloat images) 255
      Tensor.div (Tensor.sub scaled mean) std
    else images
  Tensor.resizeCropPad images 32 32

/-- Body of the block loop of `cifar_model_fn` (lines 205-211): a dense block,
then a transition layer unless this is the last block. -/
def DenseNet.block_step (d : DenseNet) (growth_rate : Nat) (layers_per_block : Int)
    (training : Bool) (output : Tensor) (block : Nat) : Tensor :=
  let output := d.add_dense_block output growth_rate layers_per_block training
  if block ≠ d.total_blocks - 1 then d.transition_layer output training else output

/-- The `DenseNet` scope block loop of `cifar_model_fn` (lines 204-211). -/
def DenseNet.block_loop (d : DenseNet) (input_ : Tensor) (growth_rate : Nat)
    (layers_per_block : Int) (training : Bool) : Tensor :=
  (List.range d.total_blocks).foldl (d.block_step growth_rate layers_per_block training) input_

/-- `DenseNet.cifar_model_fn` (lines 179-260).  Returns `none` when no
`return` statement is reached (a mode that is none of predict, eval, train
falls off the end of the Python function). -/
def DenseNet.cifar_model_fn (d : DenseNet) (features : Features) (labels : Tensor)
    (mode : String) : Option EstimatorSpec :=
  let layers_per_block := d.model_fn_layers_per_block
  let growth_rate := d.growth_rate
  let training := mode = ModeKeys.TRAIN
  let images := image_processing features.images mode
  let output := conv2d images d.first_output_features 3 true
  let output := d.block_loop output growth_rate layers_per_block training
  let logits := d.classification_layer output training
  let probabilities := Tensor.softmax logits
  let classes := Tensor.argmax probabilities
  let predictions : Predictions := { classes := classes, probabilities := probabilities }
  if mode = ModeKeys.PREDICT then
    some { mode := mode, predictions := some predictions, loss := none,
           train_op := none, eval_metric_ops := none }
  else
    let onehot_labels := Tensor.oneHot (Tensor.castInt labels) d.num_classes
    let loss := Tensor.reduceMean (Tensor.softmaxXent logits onehot_labels)
    let eval_metric_ops := Tensor.accuracy labels classes
    if mode = ModeKeys.EVAL then
      some { mode := mode, predictions := none, loss := some loss,
             train_op := none, eval_metric_ops := some eval_metric_ops }
    else
      let l2_loss := Tensor.l2AllVars
      let train_op : TrainOp :=
        { learning_rate := features.learning_rate, momentum := d.nesterov_momentum,
          use_nesterov := true,
          objective := Tensor.add loss (Tensor.mulScalar l2_loss d.weight_decay) }
      if mode = ModeKeys.TRAIN then
        some { mode := mode, predictions := none, loss := some loss,
               train_op := some train_op, eval_metric_ops := none }
      else
        none

/-- A concrete configuration: 10 classes, growth rate 12, depth 40, BC mode,
3 blocks, dropout 0, reduction 1/2, weight decay 1/10000, momentum 9/10. -/
def sampleBC : DenseNet := DenseNet.init 10 12 40 true 3 0 (1/2) (1/10000) (9/10)

/-- The same configuration without BC mode. -/
def samplePlain : DenseNet := DenseNet.init 10 12 40 false 3 0 (1/2) (1/10000) (9/10)

/-- A 32x32 RGB input batch. -/
def sampleImages : Tensor := Tensor.input { height := 32, width := 32, channels := 3 }

/-- A 32x32 feature map with 16 channels, as produced by the non-BC initial
convolution. -/
def sampleBlockInput : Tensor := Tensor.input { height := 32, width := 32, channels := 16 }

/-- The features mapping for the concrete runs. -/
def sampleFeatures : Features :=
  { images := sampleImages, learning_rate := Tensor.input { height := 1, width := 1, channels := 1 } }

/-- A concrete labels tensor. -/
def sampleLabels : Tensor := Tensor.input { height := 1, width := 1, channels := 1 }

/-- C1: the claim fails on the code.  On the non-BC depth-40 configuration, a
dense block with 2 layers and growth rate 12 on a 16-channel input returns
`add_layer` of the raw block input (the loop body reads `input_`, not the
running `output`, so every layer but the last is discarded), with
16 + 12 = 28 output channels, not the claimed 16 + 2 * 12 = 40. -/
theorem add_dense_block_discards_previous_layers :
    samplePlain.add_dense_block sampleBlockInput 12 2 true
      = samplePlain.add_layer sampleBlockInput 12 true
    ∧ (samplePlain.add_dense_block sampleBlockInput 12 2 true).channels = 28
    ∧ 28 ≠ sampleBlockInput.channels + 2 * 12 :=
  ⟨rfl, by decide, by decide⟩

/-- A configuration with two blocks and depth 10, where the two layer-count
derivations disagree. -/
def twoBlockNet : DenseNet := DenseNet.init 10 12 10 false 2 0 (1/2) (1/10000) (9/10)

/-- C2: counterexample.  With depth 10 and total_blocks 2 (no BC mode),
`cifar_model_fn` computes (10 - 4) // 3 = 2 layers per block while the
constructor stores (10 - 3) // 2 = 3, so the two derivations differ. -/
theorem model_fn_layer_count_differs_from_init_at_two_blocks :
    twoBlockNet.model_fn_layers_per_block ≠ twoBlockNet.layers_per_block := by
  decide

/-- C2 (amended): when `total_blocks = 3`, for every depth and bc_mode the
layer count recomputed by `cifar_model_fn` equals the constructor's
`layers_per_block`. -/
theorem model_fn_layer_count_matches_init_for_three_blocks
    (nc g : Nat) (depth : Int) (bc : Bool) (tb : Nat) (dr red wd mom : ℚ)
    (h : tb = 3) :
    (DenseNet.init nc g depth bc tb dr red wd mom).model_fn_layers_per_block
      = (DenseNet.init nc g depth bc tb dr red wd mom).layers_per_block := by
  subst h
  cases bc <;>
    simp [DenseNet.init, DenseNet.model_fn_layers_per_block]

/-- C2 witness: the amended equality at the concrete BC configuration. -/
theorem model_fn_layer_count_matches_init_for_three_blocks_witness :
    (3 : Nat) = 3 ∧
    (DenseNet.init 10 12 40 true 3 0 (1/2) (1/10000) (9/10)).model_fn_layers_per_block
      = (DenseNet.init 10 12 40 true 3 0 (1/2) (1/10000) (9/10)).layers_per_block :=
  ⟨rfl, model_fn_layer_count_matches_init_for_three_blocks 10 12 40 true 3 0 (1/2) (1/10000) (9/10) rfl⟩

/-- C4: `__init__` derives `layers_per_block = (depth - (total_blocks + 1)) //
total_blocks`, halved by integer division by 2 in BC mode, and stores every
other hyperparameter unchanged. -/
theorem init_derives_layers_per_block_and_stores_hyperparameters
    (nc g : Nat) (depth : Int) (bc : Bool) (tb : Nat) (dr red wd mom : ℚ)
    (_h : 0 < tb) :
    (DenseNet.init nc g depth bc tb dr red wd mom).layers_per_block
        = (if bc then ((depth - ((tb : Int) + 1)).fdiv tb).fdiv 2
           else (depth - ((tb : Int) + 1)).fdiv tb)
      ∧ (DenseNet.init nc g depth bc tb dr red wd mom).num_classes = nc
      ∧ (DenseNet.init nc g depth bc tb dr red wd mom).growth_rate = g
      ∧ (DenseNet.init nc g depth bc tb dr red wd mom).depth = depth
      ∧ (DenseNet.init nc g depth bc tb dr red wd mom).bc_mode = bc
      ∧ (DenseNet.init nc g depth bc tb dr red wd mom).total_blocks = tb
      ∧ (DenseNet.init nc g depth bc tb dr red wd mom).reduction = red
      ∧ (DenseNet.init nc g depth bc tb dr red wd mom).dropout_rate = dr
      ∧ (DenseNet.init nc g depth bc tb dr red wd mom).weight_decay = wd
      ∧ (DenseNet.init nc g depth bc tb dr red wd mom).nesterov_momentum = mom := by
  cases bc <;>
    exact ⟨rfl, rfl, rfl, rfl, rfl, rfl, rfl, rfl, rfl, rfl⟩

/-- C4 witness: the derivation at the concrete BC configuration. -/
theorem init_derives_layers_per_block_witness :
    (0 : Nat) < 3 ∧
    ((DenseNet.init 10 12 40 true 3 0 (1/2) (1/10000) (9/10)).layers_per_block
        = (if true then (((40 : Int) - ((3 : Nat) + 1)).fdiv 3).fdiv 2
           else ((40 : Int) - ((3 : Nat) + 1)).fdiv 3)
      ∧ (DenseNet.init 10 12 40 true 3 0 (1/2) (1/10000) (9/10)).num_classes = 10
      ∧ (DenseNet.init 10 12 40 true 3 0 (1/2) (1/10000) (9/10)).growth_rate = 12
      ∧ (DenseNet.init 10 12 40 true 3 0 (1/2) (1/10000) (9/10)).depth = 40
      ∧ (DenseNet.init 10 12 40 true 3 0 (1/2) (1/10000) (9/10)).bc_mode = true
      ∧ (DenseNet.init 10 12 40 true 3 0 (1/2) (1/10000) (9/10)).total_blocks = 3
      ∧ (DenseNet.init 10 12 40 true 3 0 (1/2) (1/10000) (9/10)).reduction = 1/2
      ∧ (DenseNet.init 10 12 40 true 3 0 (1/2) (1/10000) (9/10)).dropout_rate = 0
      ∧ (DenseNet.init 10 12 40 true 3 0 (1/2) (1/10000) (9/10)).weight_decay = 1/10000
      ∧ (DenseNet.init 10 12 40 true 3 0 (1/2) (1/10000) (9/10)).nesterov_momentum = 9/10) :=
  ⟨by decide,
   init_derives_layers_per_block_and_stores_hyperparameters 10 12 40 true 3 0 (1/2) (1/10000) (9/10)
     (by decide)⟩

/-- C5: in BC mode each `add_layer` applies the 1x1 bottleneck producing
`4 * growth_rate` channels before the 3x3 composite function (and no
bottleneck otherwise), and the transition layer reduces the channel count to
`floor(in_channels * reduction)` in BC mode (unchanged otherwise). -/
theorem bottleneck_and_transition_channel_counts
    (d : DenseNet) (input_ : Tensor) (g : Nat) (tr : Bool)
    (hred : 0 ≤ d.reduction) :
    d.add_layer input_ g tr
        = Tensor.concat input_
            (d.composite_function
              (if d.bc_mode then d.bottleneck input_ (g * 4) tr else input_) g 3 tr)
      ∧ (d.bottleneck input_ (g * 4) tr).channels = 4 * g
      ∧ (d.transition_layer input_ tr).channels
          = (if d.bc_mode then (Int.floor ((input_.channels : ℚ) * d.reduction)).toNat
             else input_.channels) := by
  refine ⟨rfl, ?_, ?_⟩
  · show g * 4 = 4 * g
    omega
  · show (if d.bc_mode then pyInt (((input_.channels : Int) : ℚ) * d.reduction)
          else (input_.channels : Int)).toNat
        = (if d.bc_mode then (Int.floor ((input_.channels : ℚ) * d.reduction)).toNat
           else input_.channels)
    by_cases hbc : d.bc_mode
    · have hq : ¬(((input_.channels : Int) : ℚ) * d.reduction < 0) :=
        not_lt.mpr (mul_nonneg (by positivity) hred)
      simp only [hbc, if_true, pyInt, if_neg hq]
      push_cast
      rfl
    · simp [hbc]

/-- C5 witness: the channel counts at the concrete BC configuration, whose
reduction 1/2 is nonnegative. -/
theorem bottleneck_and_transition_channel_counts_witness :
    (0 : ℚ) ≤ sampleBC.reduction
    ∧ (sampleBC.add_layer sampleBlockInput 12 true
        = Tensor.concat sampleBlockInput
            (sampleBC.composite_function
              (if sampleBC.bc_mode then sampleBC.bottleneck sampleBlockInput (12 * 4) true
               else sampleBlockInput) 12 3 true)
      ∧ (sampleBC.bottleneck sampleBlockInput (12 * 4) true).channels = 4 * 12
      ∧ (sampleBC.transition_layer sampleBlockInput true).channels
          = (if sampleBC.bc_mode
             then (Int.floor ((sampleBlockInput.channels : ℚ) * sampleBC.reduction)).toNat
             else sampleBlockInput.channels)) :=
  ⟨by norm_num [sampleBC, DenseNet.init],
   bottleneck_and_transition_channel_counts sampleBC sampleBlockInput 12 true
     (by norm_num [sampleBC, DenseNet.init])⟩

/-- C7: `composite_function` is exactly batch normalization, then ReLU, then a
convolution with the requested kernel size and feature count, then dropout;
`add_layer` uses it with a 3x3 kernel and `transition_layer` with a 1x1
kernel. -/
theorem composite_function_sequence_and_uses
    (d : DenseNet) (input_ : Tensor) (o k g : Nat) (tr : Bool) :
    d.composite_function input_ o k tr
        = Tensor.dropout (Tensor.conv (Tensor.relu (Tensor.batchNorm input_)) o k true)
            d.dropout_rate
      ∧ d.add_layer input_ g tr
          = Tensor.concat input_
              (d.composite_function
                (if d.bc_mode then d.bottleneck input_ (g * 4) tr else input_) g 3 tr)
      ∧ (∃ f, d.transition_layer input_ tr = avg_pool (d.composite_function input_ f 1 tr) 2) :=
  ⟨rfl, rfl, ⟨_, rfl⟩⟩

/-- C8: the classification head is batch normalization, ReLU, average pooling
whose kernel is the full spatial extent of its (square) input, a flattening
reshape, and a single dense projection to `num_classes` outputs; the logits
have `num_classes` channels. -/
theorem classification_head_structure
    (d : DenseNet) (input_ : Tensor) (tr : Bool)
    (hsq : input_.height = input_.width) :
    d.classification_layer input_ tr
        = fully_connected
            (Tensor.reshape (avg_pool (Tensor.relu (batch_norm input_ tr)) input_.width)
              input_.channels) d.num_classes
      ∧ (d.classification_layer input_ tr).channels = d.num_classes
      ∧ (Tensor.relu (batch_norm input_ tr)).width = input_.width
      ∧ (Tensor.relu (batch_norm input_ tr)).height = input_.width := by
  refine ⟨rfl, rfl, rfl, ?_⟩
  show input_.height = input_.width
  exact hsq

/-- C8 witness: the classification head on the square 32x32 16-channel input. -/
theorem classification_head_structure_witness :
    sampleBlockInput.height = sampleBlockInput.width
    ∧ (sampleBC.classification_layer sampleBlockInput true
        = fully_connected
            (Tensor.reshape
              (avg_pool (Tensor.relu (batch_norm sampleBlockInput true)) sampleBlockInput.width)
              sampleBlockInput.channels) sampleBC.num_classes
      ∧ (sampleBC.classification_layer sampleBlockInput true).channels = sampleBC.num_classes
      ∧ (Tensor.relu (batch_norm sampleBlockInput true)).width = sampleBlockInput.width
      ∧ (Tensor.relu (batch_norm sampleBlockInput true)).height = sampleBlockInput.width) :=
  ⟨rfl, classification_head_structure sampleBC sampleBlockInput true rfl⟩

/-- C6: the block loop applies a transition layer after every dense block
except the last (the indices of `range total_blocks` that get one are exactly
those different from `total_blocks - 1`, so there are `total_blocks - 1` of
them), and each transition layer is a 2x2 stride-2 average pooling after its
1x1 composite function, halving each spatial dimension. -/
theorem transition_after_all_but_last_block_and_halving
    (d : DenseNet) (g : Nat) (n : Int) (tr : Bool) (out input_ : Tensor) (b : Nat)
    (htb : 1 ≤ d.total_blocks) (hh : 2 ≤ input_.height) (hw : 2 ≤ input_.width) :
    ((List.range d.total_blocks).filter (fun k => k != d.total_blocks - 1)).length
        = d.total_blocks - 1
      ∧ (b ≠ d.total_blocks - 1 →
          d.block_step g n tr out b = d.transition_layer (d.add_dense_block out g n tr) tr)
      ∧ (b = d.total_blocks - 1 →
          d.block_step g n tr out b = d.add_dense_block out g n tr)
      ∧ (∃ f, d.transition_layer input_ tr = avg_pool (d.composite_function input_ f 1 tr) 2)
      ∧ (d.transition_layer input_ tr).height = input_.height / 2
      ∧ (d.transition_layer input_ tr).width = input_.width / 2 := by
  refine ⟨?_, ?_, ?_, ⟨_, rfl⟩, ?_, ?_⟩
  · obtain ⟨m, hm⟩ : ∃ m, d.total_blocks = m + 1 :=
      ⟨d.total_blocks - 1, (Nat.succ_pred_eq_of_pos htb).symm⟩
    rw [hm]
    simp only [Nat.add_sub_cancel, List.range_succ, List.filter_append]
    have hself : (List.range m).filter (fun k => k != m) = List.range m :=
      List.filter_eq_self.mpr (by
        intro a ha
        simpa using Nat.ne_of_lt (List.mem_range.mp ha))
    rw [hself]
    simp
  · intro hb
    simp [DenseNet.block_step, hb]
  · intro hb
    simp [DenseNet.block_step, hb]
  · show (input_.height - 2) / 2 + 1 = input_.height / 2
    omega
  · show (input_.width - 2) / 2 + 1 = input_.width / 2
    omega

/-- C6 witness: the three-block BC configuration on the 32x32 input, at block
index 0. -/
theorem transition_after_all_but_last_block_witness :
    1 ≤ sampleBC.total_blocks ∧ 2 ≤ sampleBlockInput.height ∧ 2 ≤ sampleBlockInput.width
    ∧ (((List.range sampleBC.total_blocks).filter
          (fun k => k != sampleBC.total_blocks - 1)).length = sampleBC.total_blocks - 1
      ∧ (0 ≠ sampleBC.total_blocks - 1 →
          sampleBC.block_step 12 2 true sampleBlockInput 0
            = sampleBC.transition_layer (sampleBC.add_dense_block sampleBlockInput 12 2 true) true)
      ∧ (0 = sampleBC.total_blocks - 1 →
          sampleBC.block_step 12 2 true sampleBlockInput 0
            = sampleBC.add_dense_block sampleBlockInput 12 2 true)
      ∧ (∃ f, sampleBC.transition_layer sampleBlockInput true
            = avg_pool (sampleBC.composite_function sampleBlockInput f 1 true) 2)
      ∧ (sampleBC.transition_layer sampleBlockInput true).height = sampleBlockInput.height / 2
      ∧ (sampleBC.transition_layer sampleBlockInput true).width = sampleBlockInput.width / 2) :=
  ⟨by decide, by decide, by decide,
   transition_after_all_but_last_block_and_halving sampleBC 12 2 true sampleBlockInput
     sampleBlockInput 0 (by decide) (by decide) (by decide)⟩

/-- C3: counterexample.  In eval mode the returned `EstimatorSpec` carries no
predictions (the source passes only `loss` and `eval_metric_ops`), so the
claim that every mode's specification contains the predictions is false. -/
theorem eval_spec_has_no_predictions :
    ∃ s, samplePlain.cifar_model_fn sampleFeatures sampleLabels ModeKeys.EVAL = some s
      ∧ s.predictions = none :=
  ⟨_, rfl, rfl⟩

/-- C3 (amended): `cifar_model_fn` returns a specification object in each of
the three modes; in predict mode it contains the predictions (classes =
argmax of the probabilities) and nothing further; in eval mode the loss and
the accuracy metric but no predictions and no training op; in train mode the
loss and a training op but no predictions and no metrics. -/
theorem model_fn_mode_fields (d : DenseNet) (f : Features) (l : Tensor) :
    (∃ s p, d.cifar_model_fn f l ModeKeys.PREDICT = some s
        ∧ s.predictions = some p
        ∧ p.classes = Tensor.argmax p.probabilities
        ∧ s.loss = none ∧ s.train_op = none ∧ s.eval_metric_ops = none)
    ∧ (∃ s, d.cifar_model_fn f l ModeKeys.EVAL = some s
        ∧ s.predictions = none ∧ s.loss.isSome = true
        ∧ s.eval_metric_ops.isSome = true ∧ s.train_op = none)
    ∧ (∃ s, d.cifar_model_fn f l ModeKeys.TRAIN = some s
        ∧ s.predictions = none ∧ s.loss.isSome = true
        ∧ s.train_op.isSome = true ∧ s.eval_metric_ops = none) :=
  ⟨⟨_, _, rfl, rfl, rfl, rfl, rfl, rfl⟩,
   ⟨_, rfl, rfl, rfl, rfl, rfl⟩,
   ⟨_, rfl, rfl, rfl, rfl, rfl⟩⟩

/-- C9: for a mode that is none of train, eval, or predict, `cifar_model_fn`
reaches the end of the function without any `return` (having built the loss,
the optimizer/training op, and the accuracy along the way) and so returns
`None`. -/
theorem model_fn_unknown_mode_returns_none
    (d : DenseNet) (f : Features) (l : Tensor) (mode : String)
    (h1 : mode ≠ ModeKeys.TRAIN) (h2 : mode ≠ ModeKeys.EVAL)
    (h3 : mode ≠ ModeKeys.PREDICT) :
    d.cifar_model_fn f l mode = none := by
  simp [DenseNet.cifar_model_fn, h1, h2, h3]

/-- C9 witness: the literal mode string "predict" is not a mode key (the
predict key is "infer"), and the model function returns `none` on it. -/
theorem model_fn_unknown_mode_returns_none_witness :
    ("predict" ≠ ModeKeys.TRAIN) ∧ ("predict" ≠ ModeKeys.EVAL)
    ∧ ("predict" ≠ ModeKeys.PREDICT)
    ∧ samplePlain.cifar_model_fn sampleFeatures sampleLabels "predict" = none :=
  ⟨by decide, by decide, by decide,
   model_fn_unknown_mode_returns_none samplePlain sampleFeatures sampleLabels "predict"
     (by decide) (by decide) (by decide)⟩

/-- C10: the image-processing stage standardizes the batch (cast, division by
255, centering by the batch mean, scaling by the batch standard deviation)
exactly when the mode is predict, and applies the crop-or-pad resize to 32x32
in every mode; the standardized graph is a different graph from the raw
images, so the two branches really differ. -/
theorem standardization_iff_predict_mode (images : Tensor) (mode : String) :
    image_processing images mode
        = Tensor.resizeCropPad
            (if mode = ModeKeys.PREDICT then
              Tensor.div
                (Tensor.sub (Tensor.divScalar (Tensor.castFloat images) 255)
                  (Tensor.momentsMean images))
                (Tensor.sqrt (Tensor.momentsVariance images))
            else images) 32 32
    ∧ Tensor.div
        (Tensor.sub (Tensor.divScalar (Tensor.castFloat images) 255)
          (Tensor.momentsMean images))
        (Tensor.sqrt (Tensor.momentsVariance images)) ≠ images := by
  constructor
  · by_cases h : mode = ModeKeys.PREDICT <;> simp [image_processing, h]
  · intro hEq
    have hc := congrArg Tensor.nodeCount hEq
    simp [Tensor.nodeCount] at hc
    omega
